import Mathlib

/-!
Verification of the sourceweaver OSINT aggregation core.

Shallow embedding of the Python sources under `python-osint/`:

* `api/data/dorking_templates.py` — the template registries and their filters;
* `api/routers/alias_search_router.py` — the social-media priority filter;
* `api/services/dorking_service.py` — the comprehensive-analysis loop;
* `api/clients/google_search_client.py` — the rate limiter and search params;
* `api/clients/haveibeenpwned_client.py` — HTTP classification and the
  k-anonymity pwned-password check;
* `scripts/domain_analysis.py`, `scripts/ip_analysis.py` — threat scoring.

Python strings are embedded as `String` where only equality matters and as
`List Char` where character-level computation (slicing, splitting) matters;
machine integers are `Int`; wall-clock timestamps are `Int` seconds;
`datetime.date` grouping and the quota-reset boundary are abstracted as
explicit functions `Int → Int` passed to the rate-limiter model; fallible
paths return `Except`.
-/

/-! ## Dorking templates (`api/data/dorking_templates.py`) -/

/-- One entry of a template registry: the dictionaries of
`alias_dorking_templates` / `domain_dorking_templates` with keys
`category`, `objective`, `dork`, `description`, `priority`. -/
structure DorkTemplate where
  category : String
  objective : String
  dork : String
  description : String
  priority : String
deriving DecidableEq

/-- The module-level registry `alias_dorking_templates`, in source order. -/
def alias_dorking_templates : List DorkTemplate := [
  ⟨"Redes Sociales", "Perfil en Twitter/X",
   "site:x.com \"{target_alias}\"",
   "Busca el perfil específico del usuario en la plataforma X (anteriormente Twitter)",
   "high"⟩,
  ⟨"Redes Sociales", "Menciones en Twitter/X",
   "site:x.com \"{target_alias}\" OR \"@{target_alias}\"",
   "Encuentra menciones del alias en tweets o conversaciones",
   "high"⟩,
  ⟨"Redes Sociales", "Perfil en Facebook",
   "site:facebook.com \"{target_alias}\"",
   "Localiza perfiles o menciones en Facebook",
   "high"⟩,
  ⟨"Redes Sociales", "Actividad en Reddit",
   "site:reddit.com \"{target_alias}\" OR \"u/{target_alias}\"",
   "Busca el usuario o menciones en Reddit",
   "high"⟩,
  ⟨"Redes Sociales", "Perfil en Instagram",
   "site:instagram.com \"{target_alias}\"",
   "Encuentra el perfil de Instagram asociado",
   "medium"⟩,
  ⟨"Redes Sociales", "Perfil profesional en LinkedIn",
   "site:linkedin.com \"{target_alias}\"",
   "Busca perfiles profesionales en LinkedIn",
   "high"⟩,
  ⟨"Desarrollo", "Repositorios en GitHub",
   "site:github.com \"{target_alias}\"",
   "Encuentra repositorios y actividad de desarrollo",
   "high"⟩,
  ⟨"Desarrollo", "Actividad en Stack Overflow",
   "site:stackoverflow.com \"{target_alias}\"",
   "Busca preguntas, respuestas o perfil en Stack Overflow",
   "medium"⟩,
  ⟨"Desarrollo", "Proyectos en GitLab",
   "site:gitlab.com \"{target_alias}\"",
   "Encuentra proyectos o actividad en GitLab",
   "medium"⟩,
  ⟨"Desarrollo", "Perfil en Hacker News",
   "site:news.ycombinator.com \"{target_alias}\"",
   "Busca comentarios o menciones en Hacker News",
   "low"⟩,
  ⟨"Contenido", "Artículos en Medium",
   "site:medium.com \"{target_alias}\" OR \"@{target_alias}\"",
   "Encuentra artículos publicados o menciones en Medium",
   "medium"⟩,
  ⟨"Contenido", "Blogs en WordPress",
   "site:wordpress.com \"{target_alias}\"",
   "Busca blogs o menciones en WordPress.com",
   "low"⟩,
  ⟨"Contenido", "Newsletters en Substack",
   "site:substack.com \"{target_alias}\"",
   "Encuentra newsletters o menciones en Substack",
   "medium"⟩,
  ⟨"Contenido", "Videos en YouTube",
   "site:youtube.com \"{target_alias}\"",
   "Busca canales o menciones en YouTube",
   "medium"⟩,
  ⟨"Documentos", "Documentos PDF públicos",
   "filetype:pdf \"{target_alias}\"",
   "Encuentra documentos PDF que mencionen el alias",
   "medium"⟩,
  ⟨"Documentos", "Presentaciones públicas",
   "(filetype:pptx OR filetype:ppt) \"{target_alias}\"",
   "Busca presentaciones que mencionen el usuario",
   "low"⟩,
  ⟨"Documentos", "Documentos de Word",
   "(filetype:docx OR filetype:doc) \"{target_alias}\"",
   "Encuentra documentos de Word con menciones",
   "low"⟩,
  ⟨"Comunidades", "Actividad en foros generales",
   "\"{target_alias}\" (site:forum.* OR site:community.* OR inurl:forum)",
   "Rastrea actividad en foros y comunidades online",
   "medium"⟩,
  ⟨"Comunidades", "Menciones fuera de redes principales",
   "\"{target_alias}\" -site:x.com -site:facebook.com -site:instagram.com -site:linkedin.com",
   "Encuentra menciones excluyendo las redes sociales principales",
   "high"⟩,
  ⟨"Comunidades", "Actividad en Discord (enlaces)",
   "\"discord.gg\" \"{target_alias}\" OR \"discord.com\" \"{target_alias}\"",
   "Busca enlaces o menciones relacionadas con Discord",
   "low"⟩,
  ⟨"General", "Búsqueda amplia con variaciones",
   "\"{target_alias}\" OR \"@{target_alias}\" OR \"{target_clean}\"",
   "Búsqueda general con múltiples variaciones del alias",
   "high"⟩,
  ⟨"General", "Menciones en títulos",
   "intitle:\"{target_alias}\" OR intitle:\"@{target_alias}\"",
   "Busca páginas que tengan el alias en el título",
   "medium"⟩,
  ⟨"General", "Menciones en URLs",
   "inurl:\"{target_alias}\"",
   "Encuentra URLs que contengan el alias",
   "medium"⟩]

/-- The module-level registry `domain_dorking_templates`, in source order. -/
def domain_dorking_templates : List DorkTemplate := [
  ⟨"Infraestructura", "Descubrimiento de subdominios",
   "site:*.{target_domain} -site:www.{target_domain}",
   "Encuentra subdominios indexados por Google",
   "high"⟩,
  ⟨"Infraestructura", "Identificación de portales de login",
   "site:{target_domain} (intitle:\"Login\" | inurl:\"login\" | inurl:\"signin\" | inurl:\"auth\")",
   "Localiza páginas de autenticación",
   "high"⟩,
  ⟨"Información Sensible", "Documentos confidenciales",
   "site:{target_domain} (filetype:pdf | filetype:xlsx | filetype:docx) (\"confidencial\" | \"interno\" | \"privado\")",
   "Encuentra documentos con información sensible",
   "high"⟩]

/-- The `PRIORITY_LEVELS` dict lookup with default 999:
`PRIORITY_LEVELS.get(x["priority"], 999)`. -/
def PRIORITY_LEVELS (p : String) : Nat :=
  if p = "high" then 1 else if p = "medium" then 2 else if p = "low" then 3 else 999

/-- `get_templates_by_priority(templates, priority)`:
`[t for t in templates if t["priority"] == priority]` — an exact match on
the priority tag. -/
def get_templates_by_priority (templates : List DorkTemplate) (priority : String) :
    List DorkTemplate :=
  templates.filter (fun t => t.priority == priority)

/-- `get_templates_by_category(templates, category)`:
`[t for t in templates if t["category"] == category]`. -/
def get_templates_by_category (templates : List DorkTemplate) (category : String) :
    List DorkTemplate :=
  templates.filter (fun t => t.category == category)

/-- Stable insertion of one template into an already-sorted list, keeping
earlier elements with an equal key in front. -/
def insertTemplateByLevel (t : DorkTemplate) : List DorkTemplate → List DorkTemplate
  | [] => [t]
  | u :: us =>
    if PRIORITY_LEVELS u.priority < PRIORITY_LEVELS t.priority then
      u :: insertTemplateByLevel t us
    else t :: u :: us

/-- `templates.sort(key=lambda x: PRIORITY_LEVELS.get(x["priority"], 999))`:
Python's `list.sort` is a stable sort by the key; modelled as a stable
insertion sort by `PRIORITY_LEVELS`. -/
def sortTemplatesByLevel : List DorkTemplate → List DorkTemplate
  | [] => []
  | t :: rest => insertTemplateByLevel t (sortTemplatesByLevel rest)

/-- Value of the module-level list `alias_dorking_templates` after
`DorkingService.analyze_alias_comprehensive(alias, priority_filter,
category_filter, ...)` returns.  The service does
`templates = alias_dorking_templates`, reassigns `templates` to a fresh
filtered list when a (truthy) filter is supplied, then calls
`templates.sort(...)`, which mutates the list object `templates` refers to in
place: with both filters absent that object is the module-level registry
itself. -/
def registry_after_analyze_alias (priorityFilt categoryFilt : Option String) :
    List DorkTemplate :=
  match priorityFilt, categoryFilt with
  | none, none => sortTemplatesByLevel alias_dorking_templates
  | _, _ => alias_dorking_templates

/-- Value of `domain_dorking_templates` after
`DorkingService.analyze_domain_comprehensive(domain, priority_filter, ...)`
returns. -/
def registry_after_analyze_domain (priorityFilt : Option String) : List DorkTemplate :=
  match priorityFilt with
  | none => sortTemplatesByLevel domain_dorking_templates
  | some _ => domain_dorking_templates

/-! ## Social-media priority filter (`api/routers/alias_search_router.py`) -/

/-- `SearchPriority` enum of the alias-search schemas. -/
inductive SearchPriority where
  | all
  | high
  | medium
  | low
deriving DecidableEq

/-- Per-platform query configuration: the `{"priority": ..., "query": ...,
"description": ...}` dict built by
`SocialMediaQueryBuilder.get_platform_queries`. -/
structure PlatformConfig where
  priority : String
  query : String
  description : String
deriving DecidableEq

/-- The `priority_map` of `SocialMediaQueryBuilder.filter_by_priority`
(`.get(priority, ["high"])`; the `ALL` key is handled before the map is
consulted). -/
def allowedPriorities : SearchPriority → List String
  | .high => ["high"]
  | .medium => ["high", "medium"]
  | .low => ["high", "medium", "low"]
  | .all => ["high"]

/-- `SocialMediaQueryBuilder.filter_by_priority(platform_queries, priority)`:
returns `platform_queries` unchanged for `ALL`, otherwise keeps the entries
whose `config["priority"]` is in the allowed list.  A Python dict keeps
insertion order, so it is modelled as an association list. -/
def filter_by_priority (platform_queries : List (String × PlatformConfig))
    (priority : SearchPriority) : List (String × PlatformConfig) :=
  if priority = SearchPriority.all then platform_queries
  else platform_queries.filter (fun x => (allowedPriorities priority).contains x.2.priority)

/-! ## C1 — the "medium includes high" superset rule -/

/-- C1 counterexample: the claim says filtering with `priority_filter="medium"`
returns every template tagged `"high"` or `"medium"` for every registry, but
`get_templates_by_priority` — the filter `DorkingService` applies to the
template registries — matches the tag exactly: a template of the alias
registry tagged `"high"` is excluded from its result. -/
theorem C1_counterexample :
    ∃ t ∈ alias_dorking_templates, t.priority = "high" ∧
      t ∉ get_templates_by_priority alias_dorking_templates "medium" := by
  decide

/-- C1 (amended): the strict superset rule holds for the social-media filter
`SocialMediaQueryBuilder.filter_by_priority` — requesting `medium` keeps
exactly the platforms tagged `"high"` or `"medium"`, and `all` keeps
everything — while the registry filter `get_templates_by_priority` used by
`DorkingService` keeps exactly the templates whose tag equals the requested
priority. -/
theorem C1_priority_filters :
    (∀ (pq : List (String × PlatformConfig)) (x : String × PlatformConfig),
        x ∈ filter_by_priority pq SearchPriority.medium ↔
          x ∈ pq ∧ (x.2.priority = "high" ∨ x.2.priority = "medium")) ∧
    (∀ pq : List (String × PlatformConfig), filter_by_priority pq SearchPriority.all = pq) ∧
    (∀ (templates : List DorkTemplate) (p : String) (t : DorkTemplate),
        t ∈ get_templates_by_priority templates p ↔ t ∈ templates ∧ t.priority = p) := by
  refine ⟨fun pq x => ?_, fun pq => rfl, fun templates p t => ?_⟩
  · simp [filter_by_priority, allowedPriorities, List.contains, List.elem_eq_mem,
      and_assoc]
  · simp only [get_templates_by_priority, List.mem_filter, beq_iff_eq]

/-! ## C9 — mutation of the module-level registry -/

/-- C9: `analyze_alias_comprehensive` called with no filters sorts the
module-level registry `alias_dorking_templates` in place, so the registry's
order after the call differs from its order at process start (the template
tagged `"medium"` at index 4 is moved behind later `"high"` templates). -/
theorem C9_registry_mutated :
    registry_after_analyze_alias none none ≠ alias_dorking_templates := by
  decide

/-! ## Comprehensive analysis loop (`api/services/dorking_service.py`) -/

/-- Outcome of one `google_client.search` call inside the analysis loop:
success with the parsed `totalResults` and number of returned items, a
`GoogleSearchAPIError`, or any other exception. -/
inductive QueryOutcome where
  | success (totalResults : Nat) (returnedItems : Nat)
  | apiError (message : String) (code : Int)
  | failure (message : String)

/-- The `results["summary"]` counters that
`analyze_alias_comprehensive` accumulates over its template loop. -/
structure AnalysisSummary where
  total_results_found : Nat
  successful_queries : Nat
  failed_queries : Nat
  high_value_findings : Nat
deriving DecidableEq

/-- State of the analysis after the loop: the indices of the templates whose
query was attempted, in order, and the summary counters. -/
structure AnalysisState where
  executed : List Nat
  summary : AnalysisSummary
deriving DecidableEq

/-- The `for i, template in enumerate(templates)` loop of
`DorkingService.analyze_alias_comprehensive`.  Each iteration runs the
template's query (`exec i` abstracts the network call) inside a
`try/except`: a success adds the total to `total_results_found`, bumps
`successful_queries` and appends a high-value finding for a `"high"`
template with results; `GoogleSearchAPIError` and any other exception each
record an error result and bump `failed_queries`; no outcome leaves the
loop. -/
def analyzeLoop (exec : Nat → QueryOutcome) : Nat → List DorkTemplate → AnalysisState
  | _, [] => ⟨[], ⟨0, 0, 0, 0⟩⟩
  | i, t :: rest =>
    let tail := analyzeLoop exec (i + 1) rest
    match exec i with
    | .success total _items =>
      ⟨i :: tail.executed,
       ⟨total + tail.summary.total_results_found,
        1 + tail.summary.successful_queries,
        tail.summary.failed_queries,
        (if 0 < total ∧ t.priority = "high" then 1 else 0) +
          tail.summary.high_value_findings⟩⟩
    | .apiError _ _ =>
      ⟨i :: tail.executed,
       ⟨tail.summary.total_results_found,
        tail.summary.successful_queries,
        1 + tail.summary.failed_queries,
        tail.summary.high_value_findings⟩⟩
    | .failure _ =>
      ⟨i :: tail.executed,
       ⟨tail.summary.total_results_found,
        tail.summary.successful_queries,
        1 + tail.summary.failed_queries,
        tail.summary.high_value_findings⟩⟩

/-- `DorkingService.analyze_alias_comprehensive` restricted to its template
loop, run over an already filtered and sorted template list. -/
def analyze_alias_comprehensive (templates : List DorkTemplate)
    (exec : Nat → QueryOutcome) : AnalysisState :=
  analyzeLoop exec 0 templates

theorem analyzeLoop_executed (exec : Nat → QueryOutcome) (i : Nat)
    (templates : List DorkTemplate) :
    (analyzeLoop exec i templates).executed = List.range' i templates.length := by
  induction templates generalizing i with
  | nil => rfl
  | cons t rest ih =>
    cases h : exec i <;>
      simp [analyzeLoop, h, ih, List.range'] 

theorem analyzeLoop_counters (exec : Nat → QueryOutcome) (i : Nat)
    (templates : List DorkTemplate) :
    (analyzeLoop exec i templates).summary.successful_queries +
      (analyzeLoop exec i templates).summary.failed_queries = templates.length := by
  induction templates generalizing i with
  | nil => rfl
  | cons t rest ih =>
    have hr := ih (i + 1)
    cases h : exec i <;> simp [analyzeLoop, h] <;> omega

/-- C3: for every template list and every assignment of per-query outcomes,
the comprehensive analysis attempts every one of the N planned queries — a
failing query is recorded, never aborts the loop — and on completion
`successful_queries + failed_queries = N`. -/
theorem C3_all_queries_attempted (templates : List DorkTemplate)
    (exec : Nat → QueryOutcome) :
    (analyze_alias_comprehensive templates exec).executed =
      List.range templates.length ∧
    (analyze_alias_comprehensive templates exec).summary.successful_queries +
      (analyze_alias_comprehensive templates exec).summary.failed_queries =
      templates.length := by
  refine ⟨?_, analyzeLoop_counters exec 0 templates⟩
  rw [List.range_eq_range']
  exact analyzeLoop_executed exec 0 templates

/-! ## Google search rate limiter (`api/clients/google_search_client.py`) -/

/-- The two sliding windows of `GoogleSearchRateLimit`: `calls_today` and
`calls_last_minute`, lists of admission timestamps (seconds, UTC). -/
structure RLState where
  calls_today : List Int
  calls_last_minute : List Int
deriving DecidableEq

/-- `min(self.calls_last_minute)` on a non-empty list. -/
def oldestCall (c : Int) (cs : List Int) : Int := cs.foldl min c

/-- `GoogleSearchRateLimit.wait_if_needed`, as a function of the window state
and the wall clock `now` at entry; returns the state after the call is
recorded together with the admission timestamp.  `dayOf` abstracts
`t.astimezone(America/Los_Angeles).date()` and `nextMidnight` the next
Pacific midnight after `t`; `asyncio.sleep` is modelled by advancing the
clock.  Faithful details: the purge after the per-minute wait reuses the
`now_utc` captured *before* the sleep (`call_time > now_utc - 60s`), and the
day-limit wait duration is also computed from that same pre-sleep clock; the
trailing 0.1 s courtesy delay happens after the call is recorded and does
not change the windows.  (With `calls_per_minute = 0`, Python's `min([])`
would raise; the spec rules a zero quota out, and the model returns without
waiting in that unreachable branch.) -/
def wait_if_needed (calls_per_day calls_per_minute : Nat)
    (dayOf nextMidnight : Int → Int) (s : RLState) (now : Int) : RLState × Int :=
  let today := dayOf now
  let callsToday := s.calls_today.filter (fun t => dayOf t == today)
  let callsMinute := s.calls_last_minute.filter (fun t => now - 60 < t)
  let afterMinute : List Int × Int :=
    if calls_per_minute ≤ callsMinute.length then
      match callsMinute with
      | [] => (callsMinute, now)
      | c :: cs =>
        let waitUntil := oldestCall c cs + 60
        if 0 < waitUntil - now then
          (callsMinute.filter (fun t => now - 60 < t), waitUntil)
        else (callsMinute, now)
    else (callsMinute, now)
  let afterDay : List Int × List Int × Int :=
    if calls_per_day ≤ callsToday.length then
      ([], [], afterMinute.2 + (nextMidnight now - now))
    else (callsToday, afterMinute.1, afterMinute.2)
  let admitted := afterDay.2.2
  (⟨afterDay.1 ++ [admitted], afterDay.2.1 ++ [admitted]⟩, admitted)

/-- Concrete day function for the counterexample run: the calendar day of a
timestamp in an arbitrary fixed-offset timezone (offset 0). -/
def exDayOf (t : Int) : Int := t.fdiv 86400

/-- Concrete next-midnight function matching `exDayOf`. -/
def exNextMidnight (t : Int) : Int := 86400 * (t.fdiv 86400 + 1)

/-- C2: the minute window can exceed its ceiling at the instant a call is
admitted.  With `calls_per_minute = 1`, an admission at t=0 followed by one
at t=1 forces the second call to wait until t=60; the post-wait purge keeps
every entry newer than the *pre-sleep* clock minus 60 s, so the stale t=0
entry survives and recording the call leaves `calls_last_minute = [0, 60]`
— two entries against a ceiling of one.  (The code's own comment says the
post-wait filter is there to "clean up expired calls after waiting".) -/
theorem C2_minute_window_overflow :
    ((wait_if_needed 100 1 exDayOf exNextMidnight
        (wait_if_needed 100 1 exDayOf exNextMidnight ⟨[], []⟩ 0).1 1).1.calls_last_minute
      = [0, 60]) ∧
    1 < ((wait_if_needed 100 1 exDayOf exNextMidnight
        (wait_if_needed 100 1 exDayOf exNextMidnight ⟨[], []⟩ 0).1 1).1.calls_last_minute).length := by
  constructor <;> decide

/-! ## HaveIBeenPwned client (`api/clients/haveibeenpwned_client.py`) -/

/-- `HaveIBeenPwnedClient._make_request` on the breach endpoints, as a
function of the HTTP status, the `retry-after` header, the decoded JSON body
(a list of raw breach records, abstracted as strings) and the error body
text.  200 returns the body; 404 returns the literal `[]` ("this is normal
for accounts/domains with no breaches"); 429, 401 and 403 raise exceptions
with fixed messages; anything else raises with the status and the response
text. -/
def hibp_make_request (status : Nat) (retryAfter : Option String)
    (jsonBody : List String) (errorText : String) : Except String (List String) :=
  if status = 200 then .ok jsonBody
  else if status = 404 then .ok []
  else if status = 429 then
    .error ("Rate limit exceeded. Retry after " ++ retryAfter.getD "60" ++ " seconds.")
  else if status = 401 then .error "Unauthorized - Invalid API key"
  else if status = 403 then .error "Forbidden - Missing or invalid User-Agent header"
  else .error ("API request failed with status " ++ toString status ++ ": " ++ errorText)

/-- C8 counterexample: the errors raised for 429/401/403 do *not* preserve
the provider's original message — two 401 responses with different bodies
produce the identical fixed exception, which also nowhere carries the
status code. -/
theorem C8_counterexample :
    hibp_make_request 401 none [] "token has expired at the provider" =
      hibp_make_request 401 none [] "stale credential rejected" ∧
    hibp_make_request 401 none [] "token has expired at the provider" =
      .error "Unauthorized - Invalid API key" := by
  constructor <;> rfl

/-- C8 (amended): a 404 response yields the empty breach list rather than an
error, for every header and body; 429, 401 and 403 each raise, with three
pairwise-distinct fixed messages (429's embeds the `retry-after` header
value, defaulting to 60); the original status code and response body are
carried only by the catch-all branch for unexpected statuses. -/
theorem C8_status_classification :
    (∀ (ra : Option String) (body : List String) (et : String),
        hibp_make_request 404 ra body et = .ok []) ∧
    (∀ (ra : Option String) (body : List String) (et : String),
        hibp_make_request 429 ra body et =
          .error ("Rate limit exceeded. Retry after " ++ ra.getD "60" ++ " seconds.") ∧
        hibp_make_request 401 ra body et = .error "Unauthorized - Invalid API key" ∧
        hibp_make_request 403 ra body et =
          .error "Forbidden - Missing or invalid User-Agent header" ∧
        ("Rate limit exceeded. Retry after " ++ ra.getD "60" ++ " seconds." ≠
          "Unauthorized - Invalid API key") ∧
        ("Rate limit exceeded. Retry after " ++ ra.getD "60" ++ " seconds." ≠
          "Forbidden - Missing or invalid User-Agent header") ∧
        ("Unauthorized - Invalid API key" : String) ≠
          "Forbidden - Missing or invalid User-Agent header") := by
  refine ⟨fun ra body et => rfl, fun ra body et => ⟨rfl, rfl, rfl, ?_, ?_, by decide⟩⟩
  · intro he
    have h1 : ("Rate limit exceeded. Retry after " ++
        (ra.getD "60" ++ " seconds.")).data.head? = some 'R' := by
      rw [String.data_append]; rfl
    rw [← String.append_assoc, he] at h1
    exact absurd h1 (by decide)
  · intro he
    have h1 : ("Rate limit exceeded. Retry after " ++
        (ra.getD "60" ++ " seconds.")).data.head? = some 'R' := by
      rw [String.data_append]; rfl
    rw [← String.append_assoc, he] at h1
    exact absurd h1 (by decide)

/-! ## Pwned-password check (`HaveIBeenPwnedClient.check_pwned_password`)

The password, the SHA-1 hex digest and the response lines are embedded at
character level (`List Char`), where Python's slicing and `str.split` are
computable; SHA-1 itself is an opaque parameter of the model (the claims are
about what the client does with the digest, not about SHA-1). -/

/-- `.upper()` on a hex string. -/
def toUpperChars (cs : List Char) : List Char := cs.map Char.toUpper

/-- Python's `line.split(sep)` for a one-character separator: every maximal
(possibly empty) group between separators, so `"a:b" → ["a","b"]`,
`":" → ["",""]`. -/
def splitOnChar (sep : Char) : List Char → List (List Char)
  | [] => [[]]
  | c :: rest =>
    match splitOnChar sep rest with
    | [] => [[]]
    | g :: gs => if c = sep then [] :: g :: gs else (c :: g) :: gs

/-- Decimal digit accumulator for `parseIntChars`. -/
def parseDigits : List Char → Option Nat → Option Nat
  | [], acc => acc
  | c :: rest, acc =>
    if c.isDigit then
      parseDigits rest (some ((acc.getD 0) * 10 + (c.toNat - '0'.toNat)))
    else none

/-- Python's `int(s)` on an optionally signed decimal numeral (the only
shapes the pwned-passwords counts take); `none` models the `ValueError`. -/
def parseIntChars (cs : List Char) : Option Int :=
  match cs with
  | '-' :: rest => (parseDigits rest none).map (fun n => -(n : Int))
  | '+' :: rest => (parseDigits rest none).map (fun n => (n : Int))
  | _ => (parseDigits cs none).map (fun n => (n : Int))

/-- The `PwnedPasswordModel` pydantic record. -/
structure PwnedPasswordModel where
  hash_suffix : List Char
  count : Int
  is_pwned : Bool
deriving DecidableEq

/-- The `for line in lines` loop of `check_pwned_password`: a line without
`':'` is skipped; a line with one `':'` is unpacked into suffix and count
and, only when the suffix equals the local digest's suffix, the count is
parsed and the pwned record returned; a line whose split does not unpack
into two parts raises (`ValueError`), as does a matching line with a
non-numeric count; a loop that finds no match returns `count = 0`,
`is_pwned = False`. -/
def scanRangeLines (localSuffix : List Char) :
    List (List Char) → Except String PwnedPasswordModel
  | [] => .ok ⟨localSuffix, 0, false⟩
  | line :: rest =>
    if line.contains ':' then
      match splitOnChar ':' line with
      | [sfx, cnt] =>
        if sfx = localSuffix then
          match parseIntChars cnt with
          | some n => .ok ⟨localSuffix, n, true⟩
          | none => .error "ValueError: invalid literal for int()"
        else scanRangeLines localSuffix rest
      | _ => .error "ValueError: unpacking line.split(':')"
    else scanRangeLines localSuffix rest

/-- Observable behaviour of one `check_pwned_password` call: the hex
characters sent to the provider (the `{hash_prefix}` path segment of the
range request — nothing else password-derived leaves the process), the
returned record or error, and the log lines the method emits. -/
structure PwnedCheckOutput where
  sentHexChars : List Char
  result : Except String PwnedPasswordModel
  logLines : List String

/-- `HaveIBeenPwnedClient.check_pwned_password(password)`:
`password_hash = sha1(password).hexdigest().upper()`, the first 5 hex
characters go into the range URL, the remainder is kept locally and matched
against the response lines; the only log line the method itself writes is
the error log in the `except` clause, which carries the exception text.
`sha1Hex` abstracts `hashlib.sha1(...).hexdigest()`; `respLines` the
`response_data.strip().split('\n')` of a 200 text response. -/
def check_pwned_password (sha1Hex : List Char → List Char) (password : List Char)
    (respLines : List (List Char)) : PwnedCheckOutput :=
  let password_hash := toUpperChars (sha1Hex password)
  let sent := password_hash.take 5
  let localSuffix := password_hash.drop 5
  let res := scanRangeLines localSuffix respLines
  { sentHexChars := sent
    result := res
    logLines :=
      match res with
      | .ok _ => []
      | .error msg => ["Failed to check pwned password: " ++ msg] }

theorem scanRangeLines_suffix (localSuffix : List Char) (lines : List (List Char))
    (m : PwnedPasswordModel) (h : scanRangeLines localSuffix lines = .ok m) :
    m.hash_suffix = localSuffix := by
  induction lines with
  | nil =>
    simp only [scanRangeLines] at h
    cases h
    rfl
  | cons line rest ih =>
    simp only [scanRangeLines] at h
    split at h
    · split at h
      · split at h
        · split at h
          · cases h; rfl
          · cases h
        · exact ih h
      · cases h
    · exact ih h

/-- C4: k-anonymity of the pwned-password check.  (1) What is sent to the
provider is exactly the first 5 hex characters of the locally computed
digest; (2) any returned record carries only the digest's suffix, never the
password; (3) the whole observable behaviour — request, result, log lines —
is a function of the password's digest alone, so two passwords with the same
digest are indistinguishable and nothing about the plaintext beyond its
digest can reach the wire, the caller or the log (the suffix match itself
happens locally, over the response lines). -/
theorem C4_k_anonymity :
    (∀ (sha1Hex : List Char → List Char) (password : List Char)
        (respLines : List (List Char)),
        (check_pwned_password sha1Hex password respLines).sentHexChars =
          (toUpperChars (sha1Hex password)).take 5) ∧
    (∀ (sha1Hex : List Char → List Char) (password : List Char)
        (respLines : List (List Char)) (m : PwnedPasswordModel),
        (check_pwned_password sha1Hex password respLines).result = .ok m →
          m.hash_suffix = (toUpperChars (sha1Hex password)).drop 5) ∧
    (∀ (sha1Hex : List Char → List Char) (p1 p2 : List Char)
        (respLines : List (List Char)),
        sha1Hex p1 = sha1Hex p2 →
          check_pwned_password sha1Hex p1 respLines =
            check_pwned_password sha1Hex p2 respLines) := by
  refine ⟨fun sha1Hex password respLines => rfl,
          fun sha1Hex password respLines m h => ?_,
          fun sha1Hex p1 p2 respLines h => ?_⟩
  · exact scanRangeLines_suffix _ _ _ h
  · simp only [check_pwned_password, h]

/-- Concrete digest for the witnesses (any length works; prefix 5 / suffix
rest). -/
def exDigestChars : List Char := ['A', 'B', 'C', 'D', 'E', 'F', '0']

/-- C4 witness: two different one-character passwords with the same digest
produce identical observable behaviour, and the sent characters are the
digest's first five. -/
theorem C4_witness :
    check_pwned_password (fun _ => exDigestChars) ['a'] [] =
      check_pwned_password (fun _ => exDigestChars) ['b'] [] ∧
    (check_pwned_password (fun _ => exDigestChars) ['a'] []).sentHexChars =
      ['A', 'B', 'C', 'D', 'E'] :=
  ⟨C4_k_anonymity.2.2 (fun _ => exDigestChars) ['a'] ['b'] [] rfl,
   by decide⟩

theorem scanRangeLines_not_found (target : List Char) (lines : List (List Char))
    (h : ∀ line ∈ lines, ':' ∈ line →
        ∃ sfx cnt, splitOnChar ':' line = [sfx, cnt] ∧ sfx ≠ target) :
    scanRangeLines target lines = .ok ⟨target, 0, false⟩ := by
  induction lines with
  | nil => rfl
  | cons line rest ih =>
    have ih2 := ih (fun l hl => h l (List.mem_cons_of_mem line hl))
    by_cases hc : ':' ∈ line
    · obtain ⟨sfx, cnt, hsplit, hne⟩ := h line (List.mem_cons_self line rest) hc
      simp [scanRangeLines, List.contains, List.elem_eq_mem, hc, hsplit, hne, ih2]
    · simp [scanRangeLines, List.contains, List.elem_eq_mem, hc, ih2]

theorem scanRangeLines_found (target : List Char) (pre : List (List Char))
    (line : List Char) (post : List (List Char)) (cntChars : List Char) (c : Int)
    (hpre : ∀ l ∈ pre, ':' ∈ l →
        ∃ sfx cnt, splitOnChar ':' l = [sfx, cnt] ∧ sfx ≠ target)
    (hc : ':' ∈ line)
    (hsplit : splitOnChar ':' line = [target, cntChars])
    (hparse : parseIntChars cntChars = some c) :
    scanRangeLines target (pre ++ line :: post) = .ok ⟨target, c, true⟩ := by
  induction pre with
  | nil =>
    simp [scanRangeLines, List.contains, List.elem_eq_mem, hc, hsplit, hparse]
  | cons l rest ih =>
    have ih2 := ih (fun x hx => hpre x (List.mem_cons_of_mem l hx))
    by_cases hcl : ':' ∈ l
    · obtain ⟨sfx, cnt, hsp, hne⟩ := hpre l (List.mem_cons_self l rest) hcl
      simp [scanRangeLines, List.contains, List.elem_eq_mem, hcl, hsp, hne, ih2]
    · simp [scanRangeLines, List.contains, List.elem_eq_mem, hcl, ih2]

/-- C5: (1) when no well-formed response line pairs the local digest suffix
with a count, the check returns `is_pwned = false` and `count = 0`; (2) when
some line pairs the suffix with count `c` (and every earlier line with a
`':'` unpacks to a different suffix), the check returns `is_pwned = true`
and `count = c`. -/
theorem C5_range_lookup :
    (∀ (sha1Hex : List Char → List Char) (password : List Char)
        (respLines : List (List Char)),
        (∀ line ∈ respLines, ':' ∈ line →
            ∃ sfx cnt, splitOnChar ':' line = [sfx, cnt] ∧
              sfx ≠ (toUpperChars (sha1Hex password)).drop 5) →
          (check_pwned_password sha1Hex password respLines).result =
            .ok ⟨(toUpperChars (sha1Hex password)).drop 5, 0, false⟩) ∧
    (∀ (sha1Hex : List Char → List Char) (password : List Char)
        (pre : List (List Char)) (line : List Char) (post : List (List Char))
        (c : Int) (cntChars : List Char),
        (∀ l ∈ pre, ':' ∈ l →
            ∃ sfx cnt, splitOnChar ':' l = [sfx, cnt] ∧
              sfx ≠ (toUpperChars (sha1Hex password)).drop 5) →
        ':' ∈ line →
        splitOnChar ':' line = [(toUpperChars (sha1Hex password)).drop 5, cntChars] →
        parseIntChars cntChars = some c →
          (check_pwned_password sha1Hex password (pre ++ line :: post)).result =
            .ok ⟨(toUpperChars (sha1Hex password)).drop 5, c, true⟩) := by
  constructor
  · intro sha1Hex password respLines h
    exact scanRangeLines_not_found _ _ h
  · intro sha1Hex password pre line post c cntChars hpre hc hsplit hparse
    exact scanRangeLines_found _ _ _ _ _ _ hpre hc hsplit hparse

/-- C5 witness: with digest `ABCDEF0`, the empty range response yields
`(false, 0)` and a response containing the line `F0:18` yields `(true, 18)`. -/
theorem C5_witness :
    (check_pwned_password (fun _ => exDigestChars) ['x'] []).result =
      .ok ⟨['F', '0'], 0, false⟩ ∧
    (check_pwned_password (fun _ => exDigestChars) ['x']
        [['F', '0', ':', '1', '8']]).result = .ok ⟨['F', '0'], 18, true⟩ := by
  have e : (toUpperChars ((fun _ => exDigestChars) (['x'] : List Char))).drop 5 =
      ['F', '0'] := by decide
  constructor
  · have h := C5_range_lookup.1 (fun _ => exDigestChars) ['x'] [] (by simp)
    rw [e] at h
    exact h
  · have h := C5_range_lookup.2 (fun _ => exDigestChars) ['x'] []
      ['F', '0', ':', '1', '8'] [] 18 ['1', '8'] (by simp) (by decide)
      (by rw [e]; decide) (by decide)
    rw [e] at h
    exact h

/-! ## Threat scoring (`scripts/domain_analysis.py`, `scripts/ip_analysis.py`)

Both scripts' `calculate_threat_score` accumulate `score` and `factors`
through a fixed sequence of signal blocks; each block is embedded as a step
function on the `(score, factors)` accumulator, applied in source order. -/

/-- The `{'score': ..., 'level': ..., 'factors': ...}` dict that
`calculate_threat_score` returns in both scripts. -/
structure ThreatScoreOutput where
  score : Int
  level : String
  factors : List String
deriving DecidableEq

/-- An intermediate `(score, factors)` accumulator. -/
abbrev ScoreAcc := Int × List String

/-- The VirusTotal block shared by both scripts (with script-specific point
values): when `threat_intelligence` has both `malicious` and `suspicious`
keys, `malicious > 5` adds `ptsHigh`, else `malicious > 0` adds `ptsLow`,
each appending a `"... malicious detections"` factor; then `suspicious > 3`
adds `ptsSusp` with its factor. -/
def vtStep (ptsHigh ptsLow ptsSusp : Int) (ti : Option (Int × Int))
    (acc : ScoreAcc) : ScoreAcc :=
  match ti with
  | none => acc
  | some (malicious, suspicious) =>
    let acc1 : ScoreAcc :=
      if malicious > 5 then
        (acc.1 + ptsHigh, acc.2 ++ [toString malicious ++ " malicious detections"])
      else if malicious > 0 then
        (acc.1 + ptsLow, acc.2 ++ [toString malicious ++ " malicious detections"])
      else acc
    if suspicious > 3 then
      (acc1.1 + ptsSusp, acc1.2 ++ [toString suspicious ++ " suspicious detections"])
    else acc1

/-- Fixed-point rendering with one decimal for the URLVoid factor strings
(Python's `f'{ratio:.1f}'`; the tie-rounding of binary floats is
approximated by rational rounding — no claim depends on this text). -/
def fmtPct (q : ℚ) : String :=
  let tenths : Int := round (q * 10)
  toString (tenths.tdiv 10) ++ "." ++ toString (tenths.tmod 10).natAbs

/-- The URLVoid block of `domain_analysis.calculate_threat_score`: when
`reputation['urlvoid']['detection_ratio']` is present (embedded as an exact
rational), `> 30` adds 25 points, else `> 10` adds 10, with their factors. -/
def urlvoidStep (uv : Option ℚ) (acc : ScoreAcc) : ScoreAcc :=
  match uv with
  | none => acc
  | some q =>
    if q > 30 then
      (acc.1 + 25, acc.2 ++ ["High URLVoid detection ratio: " ++ fmtPct q ++ "%"])
    else if q > 10 then
      (acc.1 + 10, acc.2 ++ ["Medium URLVoid detection ratio: " ++ fmtPct q ++ "%"])
    else acc

/-- The domain-age block of `domain_analysis.calculate_threat_score`: when
`whois_info['creation_date']` parsed (the `except: pass` swallows failures),
an age under 30 days adds 15 points, else under 90 days adds 5. -/
def ageStep (daysOld : Option Int) (acc : ScoreAcc) : ScoreAcc :=
  match daysOld with
  | none => acc
  | some d =>
    if d < 30 then
      (acc.1 + 15, acc.2 ++ ["Very recent domain (" ++ toString d ++ " days old)"])
    else if d < 90 then
      (acc.1 + 5, acc.2 ++ ["Recent domain (" ++ toString d ++ " days old)"])
    else acc

/-- The AbuseIPDB block of `ip_analysis.calculate_threat_score`:
`abuse_confidence > 75` adds 40 points, else `> 25` adds 20. -/
def abuseStep (conf : Option Int) (acc : ScoreAcc) : ScoreAcc :=
  match conf with
  | none => acc
  | some confidence =>
    if confidence > 75 then (acc.1 + 40, acc.2 ++ ["High AbuseIPDB confidence"])
    else if confidence > 25 then (acc.1 + 20, acc.2 ++ ["Medium AbuseIPDB confidence"])
    else acc

/-- The level bands closing both scripts:
`≥60 high / ≥30 medium / >0 low / else clean`. -/
def bandLevel (score : Int) : String :=
  if score ≥ 60 then "high"
  else if score ≥ 30 then "medium"
  else if score > 0 then "low"
  else "clean"

/-- The signals `domain_analysis.calculate_threat_score` reads from the
`results` dict: `(malicious, suspicious)` when the `threat_intelligence`
sub-dict has both keys (the VirusTotal path always writes both, the error
path neither); the stored URLVoid `detection_ratio` when present; the parsed
domain age in days when `creation_date` is present and parseable. -/
structure DomainAnalysisSignals where
  threat_intelligence : Option (Int × Int)
  urlvoid : Option ℚ
  creation_days_old : Option Int

/-- `domain_analysis.calculate_threat_score`: the VirusTotal block
(`+40 / +20 / +15`), the URLVoid block, the domain-age block, then the level
bands, in source order starting from `score = 0`, `factors = []`. -/
def domain_calculate_threat_score (r : DomainAnalysisSignals) : ThreatScoreOutput :=
  let acc := ageStep r.creation_days_old
    (urlvoidStep r.urlvoid (vtStep 40 20 15 r.threat_intelligence ((0 : Int), [])))
  ⟨acc.1, bandLevel acc.1, acc.2⟩

/-- The signals `ip_analysis.calculate_threat_score` reads: the AbuseIPDB
`abuse_confidence` when present, and the VirusTotal pair as for domains. -/
structure IpAnalysisSignals where
  abuse_confidence : Option Int
  threat_intelligence : Option (Int × Int)

/-- `ip_analysis.calculate_threat_score`: the AbuseIPDB block
(`+40 / +20`), the VirusTotal block (`+30 / +15 / +10`), then the level
bands, in source order starting from `score = 0`, `factors = []`. -/
def ip_calculate_threat_score (r : IpAnalysisSignals) : ThreatScoreOutput :=
  let acc := vtStep 30 15 10 r.threat_intelligence
    (abuseStep r.abuse_confidence ((0 : Int), []))
  ⟨acc.1, bandLevel acc.1, acc.2⟩

/-- Points the VirusTotal malicious tier contributes. -/
def vtMaliciousPoints (ptsHigh ptsLow : Int) : Option (Int × Int) → Int
  | none => 0
  | some (m, _) => if m > 5 then ptsHigh else if m > 0 then ptsLow else 0

/-- Points the VirusTotal suspicious tier contributes. -/
def vtSuspiciousPoints (ptsSusp : Int) : Option (Int × Int) → Int
  | none => 0
  | some (_, s) => if s > 3 then ptsSusp else 0

/-- Points the URLVoid tier contributes. -/
def urlvoidPoints : Option ℚ → Int
  | none => 0
  | some q => if q > 30 then 25 else if q > 10 then 10 else 0

/-- Points the domain-age tier contributes. -/
def agePoints : Option Int → Int
  | none => 0
  | some d => if d < 30 then 15 else if d < 90 then 5 else 0

/-- Points the AbuseIPDB tier contributes. -/
def abusePoints : Option Int → Int
  | none => 0
  | some c => if c > 75 then 40 else if c > 25 then 20 else 0

theorem vtStep_fst (ptsHigh ptsLow ptsSusp : Int) (ti : Option (Int × Int))
    (acc : ScoreAcc) :
    (vtStep ptsHigh ptsLow ptsSusp ti acc).1 =
      acc.1 + vtMaliciousPoints ptsHigh ptsLow ti + vtSuspiciousPoints ptsSusp ti := by
  rcases ti with _ | ⟨m, sp⟩ <;>
    simp only [vtStep, vtMaliciousPoints, vtSuspiciousPoints]
  · ring
  · split_ifs <;> simp

theorem urlvoidStep_fst (uv : Option ℚ) (acc : ScoreAcc) :
    (urlvoidStep uv acc).1 = acc.1 + urlvoidPoints uv := by
  rcases uv with _ | q <;> simp only [urlvoidStep, urlvoidPoints]
  · ring
  · split_ifs <;> simp

theorem ageStep_fst (daysOld : Option Int) (acc : ScoreAcc) :
    (ageStep daysOld acc).1 = acc.1 + agePoints daysOld := by
  rcases daysOld with _ | d <;> simp only [ageStep, agePoints]
  · ring
  · split_ifs <;> simp

theorem abuseStep_fst (conf : Option Int) (acc : ScoreAcc) :
    (abuseStep conf acc).1 = acc.1 + abusePoints conf := by
  rcases conf with _ | c <;> simp only [abuseStep, abusePoints]
  · ring
  · split_ifs <;> simp

theorem domain_score_eq (r : DomainAnalysisSignals) :
    (domain_calculate_threat_score r).score =
      vtMaliciousPoints 40 20 r.threat_intelligence +
      vtSuspiciousPoints 15 r.threat_intelligence +
      urlvoidPoints r.urlvoid + agePoints r.creation_days_old := by
  simp only [domain_calculate_threat_score, ageStep_fst, urlvoidStep_fst, vtStep_fst]
  ring

theorem ip_score_eq (r : IpAnalysisSignals) :
    (ip_calculate_threat_score r).score =
      abusePoints r.abuse_confidence +
      vtMaliciousPoints 30 15 r.threat_intelligence +
      vtSuspiciousPoints 10 r.threat_intelligence := by
  simp only [ip_calculate_threat_score, vtStep_fst, abuseStep_fst]
  ring

theorem vtMaliciousPoints_bounds (ptsHigh ptsLow : Int) (ti : Option (Int × Int))
    (h0 : 0 ≤ ptsLow) (h1 : ptsLow ≤ ptsHigh) :
    0 ≤ vtMaliciousPoints ptsHigh ptsLow ti ∧
      vtMaliciousPoints ptsHigh ptsLow ti ≤ ptsHigh := by
  rcases ti with _ | ⟨m, sp⟩ <;> simp only [vtMaliciousPoints]
  · omega
  · split_ifs <;> omega

theorem vtSuspiciousPoints_bounds (ptsSusp : Int) (ti : Option (Int × Int))
    (h0 : 0 ≤ ptsSusp) :
    0 ≤ vtSuspiciousPoints ptsSusp ti ∧ vtSuspiciousPoints ptsSusp ti ≤ ptsSusp := by
  rcases ti with _ | ⟨m, sp⟩ <;> simp only [vtSuspiciousPoints]
  · omega
  · split_ifs <;> omega

theorem urlvoidPoints_bounds (uv : Option ℚ) :
    0 ≤ urlvoidPoints uv ∧ urlvoidPoints uv ≤ 25 := by
  rcases uv with _ | q <;> simp only [urlvoidPoints]
  · omega
  · split_ifs <;> omega

theorem agePoints_bounds (daysOld : Option Int) :
    0 ≤ agePoints daysOld ∧ agePoints daysOld ≤ 15 := by
  rcases daysOld with _ | d <;> simp only [agePoints]
  · omega
  · split_ifs <;> omega

theorem abusePoints_bounds (conf : Option Int) :
    0 ≤ abusePoints conf ∧ abusePoints conf ≤ 40 := by
  rcases conf with _ | c <;> simp only [abusePoints]
  · omega
  · split_ifs <;> omega

theorem bandLevel_spec (score : Int) :
    (60 ≤ score → bandLevel score = "high") ∧
    (30 ≤ score → score < 60 → bandLevel score = "medium") ∧
    (0 < score → score < 30 → bandLevel score = "low") ∧
    (score ≤ 0 → bandLevel score = "clean") := by
  refine ⟨fun h1 => ?_, fun h1 h2 => ?_, fun h1 h2 => ?_, fun h1 => ?_⟩ <;>
    simp only [bandLevel] <;> split_ifs <;> first | rfl | omega

/-- Factor strings the VirusTotal malicious tier appends (both point tiers
append the same text, so the factor appears exactly when `malicious > 0`). -/
def vtMaliciousFactors : Option (Int × Int) → List String
  | none => []
  | some (m, _) => if m > 0 then [toString m ++ " malicious detections"] else []

/-- Factor strings the VirusTotal suspicious tier appends. -/
def vtSuspiciousFactors : Option (Int × Int) → List String
  | none => []
  | some (_, s) => if s > 3 then [toString s ++ " suspicious detections"] else []

/-- Factor strings the URLVoid tier appends. -/
def urlvoidFactors : Option ℚ → List String
  | none => []
  | some q =>
    if q > 30 then ["High URLVoid detection ratio: " ++ fmtPct q ++ "%"]
    else if q > 10 then ["Medium URLVoid detection ratio: " ++ fmtPct q ++ "%"]
    else []

/-- Factor strings the domain-age tier appends. -/
def ageFactors : Option Int → List String
  | none => []
  | some d =>
    if d < 30 then ["Very recent domain (" ++ toString d ++ " days old)"]
    else if d < 90 then ["Recent domain (" ++ toString d ++ " days old)"]
    else []

theorem vtStep_snd (ptsHigh ptsLow ptsSusp : Int) (ti : Option (Int × Int))
    (acc : ScoreAcc) :
    (vtStep ptsHigh ptsLow ptsSusp ti acc).2 =
      acc.2 ++ vtMaliciousFactors ti ++ vtSuspiciousFactors ti := by
  rcases ti with _ | ⟨m, sp⟩ <;>
    simp only [vtStep, vtMaliciousFactors, vtSuspiciousFactors]
  · simp
  · split_ifs <;> simp <;> omega

theorem urlvoidStep_snd (uv : Option ℚ) (acc : ScoreAcc) :
    (urlvoidStep uv acc).2 = acc.2 ++ urlvoidFactors uv := by
  rcases uv with _ | q <;> simp only [urlvoidStep, urlvoidFactors]
  · simp
  · split_ifs <;> simp

theorem ageStep_snd (daysOld : Option Int) (acc : ScoreAcc) :
    (ageStep daysOld acc).2 = acc.2 ++ ageFactors daysOld := by
  rcases daysOld with _ | d <;> simp only [ageStep, ageFactors]
  · simp
  · split_ifs <;> simp

theorem domain_factors_eq (r : DomainAnalysisSignals) :
    (domain_calculate_threat_score r).factors =
      vtMaliciousFactors r.threat_intelligence ++
      vtSuspiciousFactors r.threat_intelligence ++
      urlvoidFactors r.urlvoid ++ ageFactors r.creation_days_old := by
  simp only [domain_calculate_threat_score, ageStep_snd, urlvoidStep_snd, vtStep_snd]
  simp

/-- C6: for every domain analysis result the score is the sum of the four
tiered contributions and lies in [0, 100]; the level follows the fixed bands
`≥60 high / ≥30 medium / >0 low / else clean`; the same holds for the IP
script with its three tiers; and in the 10-day-old-domain, 6-malicious
scenario the score is at least 55, the level at least `"medium"`, and the
factors include both the malicious-detections entry and the recent-domain
entry. -/
theorem C6_threat_score :
    (∀ r : DomainAnalysisSignals,
        (domain_calculate_threat_score r).score =
          vtMaliciousPoints 40 20 r.threat_intelligence +
          vtSuspiciousPoints 15 r.threat_intelligence +
          urlvoidPoints r.urlvoid + agePoints r.creation_days_old ∧
        0 ≤ (domain_calculate_threat_score r).score ∧
        (domain_calculate_threat_score r).score ≤ 100 ∧
        (60 ≤ (domain_calculate_threat_score r).score →
          (domain_calculate_threat_score r).level = "high") ∧
        (30 ≤ (domain_calculate_threat_score r).score →
          (domain_calculate_threat_score r).score < 60 →
          (domain_calculate_threat_score r).level = "medium") ∧
        (0 < (domain_calculate_threat_score r).score →
          (domain_calculate_threat_score r).score < 30 →
          (domain_calculate_threat_score r).level = "low") ∧
        ((domain_calculate_threat_score r).score ≤ 0 →
          (domain_calculate_threat_score r).level = "clean")) ∧
    (∀ r : IpAnalysisSignals,
        (ip_calculate_threat_score r).score =
          abusePoints r.abuse_confidence +
          vtMaliciousPoints 30 15 r.threat_intelligence +
          vtSuspiciousPoints 10 r.threat_intelligence ∧
        0 ≤ (ip_calculate_threat_score r).score ∧
        (ip_calculate_threat_score r).score ≤ 100 ∧
        (60 ≤ (ip_calculate_threat_score r).score →
          (ip_calculate_threat_score r).level = "high") ∧
        (30 ≤ (ip_calculate_threat_score r).score →
          (ip_calculate_threat_score r).score < 60 →
          (ip_calculate_threat_score r).level = "medium") ∧
        (0 < (ip_calculate_threat_score r).score →
          (ip_calculate_threat_score r).score < 30 →
          (ip_calculate_threat_score r).level = "low") ∧
        ((ip_calculate_threat_score r).score ≤ 0 →
          (ip_calculate_threat_score r).level = "clean")) ∧
    (∀ (su : Int) (uv : Option ℚ),
        55 ≤ (domain_calculate_threat_score ⟨some (6, su), uv, some 10⟩).score ∧
        ((domain_calculate_threat_score ⟨some (6, su), uv, some 10⟩).level = "medium" ∨
          (domain_calculate_threat_score ⟨some (6, su), uv, some 10⟩).level = "high") ∧
        "6 malicious detections" ∈
          (domain_calculate_threat_score ⟨some (6, su), uv, some 10⟩).factors ∧
        "Very recent domain (10 days old)" ∈
          (domain_calculate_threat_score ⟨some (6, su), uv, some 10⟩).factors) := by
  have hdl : ∀ r : DomainAnalysisSignals,
      (domain_calculate_threat_score r).level =
        bandLevel (domain_calculate_threat_score r).score := fun r => rfl
  have hil : ∀ r : IpAnalysisSignals,
      (ip_calculate_threat_score r).level =
        bandLevel (ip_calculate_threat_score r).score := fun r => rfl
  refine ⟨fun r => ?_, fun r => ?_, fun su uv => ?_⟩
  · obtain ⟨hm0, hm1⟩ :=
      vtMaliciousPoints_bounds 40 20 r.threat_intelligence (by norm_num) (by norm_num)
    obtain ⟨hs0, hs1⟩ := vtSuspiciousPoints_bounds 15 r.threat_intelligence (by norm_num)
    obtain ⟨hu0, hu1⟩ := urlvoidPoints_bounds r.urlvoid
    obtain ⟨ha0, ha1⟩ := agePoints_bounds r.creation_days_old
    have he := domain_score_eq r
    obtain ⟨b1, b2, b3, b4⟩ := bandLevel_spec (domain_calculate_threat_score r).score
    rw [hdl]
    exact ⟨he, by omega, by omega, b1, b2, b3, b4⟩
  · obtain ⟨hm0, hm1⟩ :=
      vtMaliciousPoints_bounds 30 15 r.threat_intelligence (by norm_num) (by norm_num)
    obtain ⟨hs0, hs1⟩ := vtSuspiciousPoints_bounds 10 r.threat_intelligence (by norm_num)
    obtain ⟨ha0, ha1⟩ := abusePoints_bounds r.abuse_confidence
    have he := ip_score_eq r
    obtain ⟨b1, b2, b3, b4⟩ := bandLevel_spec (ip_calculate_threat_score r).score
    rw [hil]
    exact ⟨he, by omega, by omega, b1, b2, b3, b4⟩
  · have he := domain_score_eq ⟨some (6, su), uv, some 10⟩
    dsimp only at he
    have hm : vtMaliciousPoints 40 20 (some ((6 : Int), su)) = 40 := by
      simp [vtMaliciousPoints]
    have hag : agePoints (some (10 : Int)) = 15 := by norm_num [agePoints]
    obtain ⟨hs0, _⟩ := vtSuspiciousPoints_bounds 15 (some ((6 : Int), su)) (by norm_num)
    obtain ⟨hu0, _⟩ := urlvoidPoints_bounds uv
    have h55 : 55 ≤ (domain_calculate_threat_score ⟨some (6, su), uv, some 10⟩).score := by
      rw [he, hm, hag]; omega
    obtain ⟨b1, b2, _, _⟩ :=
      bandLevel_spec (domain_calculate_threat_score ⟨some (6, su), uv, some 10⟩).score
    have hfac := domain_factors_eq ⟨some (6, su), uv, some 10⟩
    dsimp only at hfac
    have h6 : vtMaliciousFactors (some ((6 : Int), su)) = ["6 malicious detections"] := by
      have : toString (6 : Int) ++ " malicious detections" = "6 malicious detections" := by
        decide
      simp [vtMaliciousFactors, this]
    have h10 : ageFactors (some (10 : Int)) = ["Very recent domain (10 days old)"] := by
      have : toString (10 : Int) ++ " days old)" = "10 days old)" := by decide
      have h2 : "Very recent domain (" ++ toString (10 : Int) ++ " days old)" =
          "Very recent domain (10 days old)" := by decide
      simp [ageFactors, h2]
    refine ⟨h55, ?_, ?_, ?_⟩
    · rw [hdl]
      by_cases h60 : 60 ≤ (domain_calculate_threat_score ⟨some (6, su), uv, some 10⟩).score
      · exact Or.inr (b1 h60)
      · exact Or.inl (b2 (by omega) (by omega))
    · rw [hfac, h6]
      simp
    · rw [hfac, h10]
      simp

/-- C6 witness: the scenario instantiated with `suspicious = 0` and no
URLVoid signal — the score is exactly 55, the level `"medium"`, and both
factor strings are present. -/
theorem C6_witness :
    55 ≤ (domain_calculate_threat_score ⟨some (6, 0), none, some 10⟩).score ∧
    ((domain_calculate_threat_score ⟨some (6, 0), none, some 10⟩).level = "medium" ∨
      (domain_calculate_threat_score ⟨some (6, 0), none, some 10⟩).level = "high") ∧
    "6 malicious detections" ∈
      (domain_calculate_threat_score ⟨some (6, 0), none, some 10⟩).factors ∧
    "Very recent domain (10 days old)" ∈
      (domain_calculate_threat_score ⟨some (6, 0), none, some 10⟩).factors :=
  C6_threat_score.2.2 0 none

/-- C7: holding every other signal fixed, both scripts' threat scores are
monotone non-decreasing in the malicious-detection count. -/
theorem C7_score_monotone (su : Int) (uv : Option ℚ) (age : Option Int)
    (conf : Option Int) (m1 m2 : Int) (h : m1 ≤ m2) :
    (domain_calculate_threat_score ⟨some (m1, su), uv, age⟩).score ≤
      (domain_calculate_threat_score ⟨some (m2, su), uv, age⟩).score ∧
    (ip_calculate_threat_score ⟨conf, some (m1, su)⟩).score ≤
      (ip_calculate_threat_score ⟨conf, some (m2, su)⟩).score := by
  have hmono : ∀ pH pL : Int, 0 ≤ pL → pL ≤ pH →
      vtMaliciousPoints pH pL (some (m1, su)) ≤ vtMaliciousPoints pH pL (some (m2, su)) := by
    intro pH pL h0 h1
    simp only [vtMaliciousPoints]
    split_ifs <;> omega
  have hsusp : ∀ (p m m' : Int),
      vtSuspiciousPoints p (some (m, su)) = vtSuspiciousPoints p (some (m', su)) := by
    intro p m m'
    simp [vtSuspiciousPoints]
  constructor
  · rw [domain_score_eq, domain_score_eq]
    have hd := hmono 40 20 (by norm_num) (by norm_num)
    have hs := hsusp 15 m1 m2
    dsimp only
    omega
  · rw [ip_score_eq, ip_score_eq]
    have hi := hmono 30 15 (by norm_num) (by norm_num)
    have hs := hsusp 10 m1 m2
    dsimp only
    omega

/-- C7 witness: monotonicity applied at malicious counts 1 ≤ 7 with all
other signals empty. -/
theorem C7_witness :
    (domain_calculate_threat_score ⟨some (1, 0), none, none⟩).score ≤
      (domain_calculate_threat_score ⟨some (7, 0), none, none⟩).score ∧
    (ip_calculate_threat_score ⟨none, some (1, 0)⟩).score ≤
      (ip_calculate_threat_score ⟨none, some (7, 0)⟩).score :=
  C7_score_monotone 0 none none none 1 7 (by norm_num)

/-! ## Google search request parameters (`GoogleSearchClient.search`) -/

/-- The always-present entries of the `search_params` dict that
`GoogleSearchClient.search` builds before the optional modifiers (none of
which touch `num`): `{'q': query, 'cx': self.cse_id,
'num': min(num_results, 10), 'start': start_index, 'safe': safe}`. -/
structure GoogleSearchParams where
  q : String
  cx : String
  num : Int
  start : Int
  safe : String
deriving DecidableEq

/-- The `search_params` construction of `GoogleSearchClient.search`. -/
def build_search_params (query cse_id : String) (num_results start_index : Int)
    (safe : String) : GoogleSearchParams :=
  { q := query
    cx := cse_id
    num := min num_results 10
    start := start_index
    safe := safe }

/-- C10: the `num` parameter placed in the outbound request is
`min(num_results, 10)`, hence never exceeds 10, whatever `num_results` the
caller supplies. -/
theorem C10_num_capped (query cse_id : String) (num_results start_index : Int)
    (safe : String) :
    (build_search_params query cse_id num_results start_index safe).num =
      min num_results 10 ∧
    (build_search_params query cse_id num_results start_index safe).num ≤ 10 :=
  ⟨rfl, min_le_right num_results 10⟩
